import Mathlib

/-!
# Verification of the DORIS Observation RINEX reader (librnx)

Shallow embedding of the C++ sources of `librnx` (DORIS RINEX v3 reader):

* `src/include/obstypes.hpp`, `src/src/doris/observationtype.cpp`
  — observation types / observation codes;
* `src/include/doris_rinex.hpp` — the `DorisObsRinex` class
  (`lines_per_beacon`, iterator);
* `src/include/doris_rinex_details.hpp` — data-record structures and
  `RinexDataRecordHeader::apply_clock_offset`;
* `src/src/doris/read_next_data_block.cpp` — `resolve_block_epoch` and
  `DorisObsRinex::get_next_data_block`;
* `src/src/doris/doris_rinex.cpp` — the `DorisObsRinex` constructor.

Modelling conventions:

* C `char` buffers become `List Char`; reading past the end of the list
  yields the NUL character (the buffers in the C code are NUL-terminated
  and the functions never rely on content past the terminator except where
  the embedding models that stale content explicitly).
* C `double` becomes `ℚ` with exact arithmetic.  The two sentinel
  constants are `std::numeric_limits<double>::min() = 2 ^ (-1022)`
  exactly, which is a representable rational.
* C `int` becomes `ℤ`; narrowing stores into `signed char` fields are
  modelled with explicit reduction modulo 256 into `[-128, 127]`.
* The external `datetime` library (a separate repository) is modelled at
  its interface boundary only: a `Datetime` record, `add_seconds`, and a
  parser for the fixed `YYYY MM DD HH MM SS.SSSSSSSSS` epoch field.
-/

/- The Batteries `Rat` operations are `@[irreducible]` by default, which
blocks `decide` from evaluating the concrete scenarios below; kernel
soundness is unaffected by restoring their transparency. -/
set_option allowUnsafeReducibility true

attribute [semireducible] Rat.mul Rat.inv Rat.add Rat.sub Rat.ofScientific

set_option autoImplicit false

/- The concrete scenario evaluations reduce long character lists and
rational arithmetic inside the kernel. -/
set_option maxRecDepth 8000

namespace dso

/-- The NUL character `'\0'` used as C-string terminator. -/
def nullChar : Char := Char.ofNat 0

/-- A C character buffer: reads beyond the list give NUL. -/
abbrev LineBuf := List Char

/-- `buf[i]` for a C buffer: out-of-range reads give NUL (the embedding
only ever constructs buffers long enough for the reads the C code makes,
so the default stands for the terminator / zero padding). -/
def bufGet (buf : LineBuf) (i : Nat) : Char := buf.getD i nullChar

/-- `std::strlen` on the buffer: index of the first NUL character
(the whole length if none, consistent with `bufGet` giving NUL there). -/
def cstrlen (buf : LineBuf) : Nat := buf.findIdx (fun c => c = nullChar)

/-- The slice `buf[first..last)` read through `bufGet`. -/
def bufSlice (buf : LineBuf) (first last : Nat) : List Char :=
  (List.range (last - first)).map (fun k => bufGet buf (first + k))

/-- `skipws` from `read_next_data_block.cpp` (lines 11-14): advance over
`' '` characters, stopping at NUL or any non-space.  Returns the number of
characters skipped when starting at the head of the list. -/
def skipwsCount : List Char → Nat
  | [] => 0
  | c :: rest => if c = ' ' then skipwsCount rest + 1 else 0

/-- Index reached by `skipws(buf + i)` (NUL beyond the list stops it). -/
def skipwsIdx (buf : LineBuf) (i : Nat) : Nat :=
  i + skipwsCount (buf.drop i)

/-- C `isspace` for the default locale. -/
def isspaceChar (c : Char) : Bool :=
  c = ' ' ∨ c = '\t' ∨ c = '\n' ∨ c = Char.ofNat 11 ∨ c = Char.ofNat 12 ∨
    c = '\x0d'

/-- The blank-field scan of `read_next_data_block.cpp` lines 214-221:
walk the NUL-terminated buffer; the field is "empty" when every character
before the first NUL is a space character. -/
def bufIsEmpty : List Char → Bool
  | [] => true
  | c :: rest =>
      if c = nullChar then true
      else if isspaceChar c then bufIsEmpty rest
      else false

/-- Value of a list of decimal digit characters. -/
def digitsToNat (ds : List Char) : Nat :=
  ds.foldl (fun a c => a * 10 + (c.toNat - 48)) 0

/-- Longest prefix of decimal digits, and the rest. -/
def takeDigits (cs : List Char) : List Char × List Char :=
  (cs.takeWhile Char.isDigit, cs.dropWhile Char.isDigit)

/-- `std::from_chars` for `int` on the range `[first, last)` of `buf`:
an optional `'-'` sign followed by at least one decimal digit; parsing
stops at the first non-digit.  `none` models `std::errc::invalid_argument`
(an empty or ill-started range).  Overflow is not modelled (the fields
parsed by the reader are at most 13 characters and the scenarios proved
about stay far below `INT_MAX`). -/
def fromCharsInt (buf : LineBuf) (first last : Nat) : Option Int :=
  if last ≤ first then none
  else
    let cs := bufSlice buf first last
    let neg : Bool := cs.head? = some '-'
    let cs1 := if neg then cs.tail else cs
    let ds := (takeDigits cs1).1
    if ds = [] then none
    else some ((if neg then -1 else 1) * (digitsToNat ds : Int))

/-- `std::from_chars` for `double` (`chars_format::general`) on
`[first, last)`, with the value carried exactly in `ℚ`: optional `'-'`,
integer digits, optional `'.'` and fraction digits (at least one digit in
total), optional well-formed exponent.  A malformed exponent suffix is
simply not consumed, as in the C++ semantics. -/
def fromCharsQ (buf : LineBuf) (first last : Nat) : Option ℚ :=
  if last ≤ first then none
  else
    let cs := bufSlice buf first last
    let neg : Bool := cs.head? = some '-'
    let cs1 := if neg then cs.tail else cs
    let (d1, rest1) := takeDigits cs1
    let (d2, rest2) :=
      if rest1.head? = some '.' then takeDigits rest1.tail else ([], rest1)
    if d1 = [] ∧ d2 = [] then none
    else
      let mantissa : ℚ :=
        (digitsToNat d1 : ℚ) + (digitsToNat d2 : ℚ) / (10 : ℚ) ^ d2.length
      let expVal : Int :=
        if rest2.head? = some 'e' ∨ rest2.head? = some 'E' then
          let es := rest2.tail
          let eneg : Bool := es.head? = some '-'
          let es1 := if es.head? = some '-' ∨ es.head? = some '+' then
            es.tail else es
          let eds := (takeDigits es1).1
          if eds = [] then 0
          else (if eneg then -1 else 1) * (digitsToNat eds : Int)
        else 0
      some ((if neg then -1 else 1) * mantissa * (10 : ℚ) ^ expVal)

/-- Narrowing store of a C `int` into a `signed char` field
(two's complement wrap into `[-128, 127]`, the semantics mandated since
C++20 and used by every mainstream implementation before it). -/
def toSignedChar (v : Int) : Int := (v + 128) % 256 - 128

/-! ## Observation types and codes (`obstypes.hpp`, `observationtype.cpp`) -/

/-- `enum class DorisObservationType` from `obstypes.hpp`. -/
inductive DorisObservationType : Type
  | phase
  | pseudorange
  | power_level
  | frequency_offset
  | ground_pressure
  | ground_temperature
  | ground_humidity
deriving DecidableEq, Repr

/-- `dso::dobstype_to_char` from `observationtype.cpp` (total over the
7-element enum, so the `throw` default branch is unreachable). -/
def dobstype_to_char : DorisObservationType → Char
  | .phase => 'L'
  | .pseudorange => 'C'
  | .power_level => 'W'
  | .frequency_offset => 'F'
  | .ground_pressure => 'P'
  | .ground_temperature => 'T'
  | .ground_humidity => 'H'

/-- `dso::char_to_dobstype` from `observationtype.cpp`; `none` models the
`throw std::runtime_error` branch (UnknownObservationType). -/
def char_to_dobstype : Char → Option DorisObservationType
  | 'L' => some .phase
  | 'C' => some .pseudorange
  | 'W' => some .power_level
  | 'F' => some .frequency_offset
  | 'P' => some .ground_pressure
  | 'T' => some .ground_temperature
  | 'H' => some .ground_humidity
  | _ => none

/-- `dso::dobstype_has_frequency` from `observationtype.cpp`. -/
def dobstype_has_frequency : DorisObservationType → Bool
  | .phase => true
  | .pseudorange => true
  | .power_level => true
  | _ => false

/-- `struct DorisObservationCode` from `obstypes.hpp`. -/
structure DorisObservationCode where
  m_type : DorisObservationType
  m_freq : Int
deriving DecidableEq, Repr

/-- Error raised by the `DorisObservationCode` constructor
(`throw std::runtime_error("[ERROR] Invalid DORIS frequency number")`). -/
inductive ObsCodeError : Type
  | invalidFrequency
deriving DecidableEq, Repr

/-- `DorisObservationCode::DorisObservationCode(type, freq)` from
`observationtype.cpp` lines 80-90: the member-init list `m_freq(freq)`
narrows the `int` argument into the signed 8-bit `m_freq` field *before*
the body runs; the body then throws for a frequency-bearing type when
the narrowed `m_freq` is outside `[1,2]` (so e.g. `freq = 257` wraps to
1 and is accepted), and overwrites `m_freq` with 0 for every other
type. -/
def DorisObservationCode.make (type : DorisObservationType) (freq : Int) :
    Except ObsCodeError DorisObservationCode :=
  let m_freq := toSignedChar freq
  if dobstype_has_frequency type then
    if m_freq < 1 ∨ m_freq > 2 then .error .invalidFrequency
    else .ok ⟨type, m_freq⟩
  else .ok ⟨type, 0⟩

/-! ## Sentinels (`doris_rinex_details.hpp` lines 11-22) -/

namespace doris_rnx

/-- `2 ^ 1022` written as an explicit numeral (so that kernel reduction
of the scenarios below is cheap). -/
def TWO_POW_1022 : ℕ :=
  44942328371557897693232629769725618340449424473557664318357520289433168951375240783177119330601884005280028469967848339414697442203604155623211857659868531094441973356216371319075554900311523529863270738021251442209537670585615720368478277635206809290837627671146574559986811484619929076208839082406056034304

/-- `RECEIVER_CLOCK_OFFSET_MISSING = std::numeric_limits<double>::min()`,
which is exactly `2 ^ (-1022)`. -/
def RECEIVER_CLOCK_OFFSET_MISSING : ℚ := 1 / (TWO_POW_1022 : ℚ)

/-- `OBSERVATION_VALUE_MISSING = std::numeric_limits<double>::min()`,
which is exactly `2 ^ (-1022)`. -/
def OBSERVATION_VALUE_MISSING : ℚ := 1 / (TWO_POW_1022 : ℚ)

/-- `MAX_OBS_PER_DATA_LINE`: each data line carries at most 5 observation
slots (referenced by `get_next_data_block`). -/
def MAX_OBS_PER_DATA_LINE : Nat := 5

end doris_rnx

/-! ## The external `datetime` library, at its interface boundary

`Datetime<dso::nanoseconds>` comes from a separate repository (the
`datetime` dependency); only its interface is modelled: the parsed
calendar fields, second-of-minute in nanoseconds, and `add_seconds`,
which shifts the time stamp by a `nanoseconds` interval. -/

/-- Interface model of `dso::Datetime<dso::nanoseconds>`. -/
structure Datetime where
  year : Int
  month : Int
  dom : Int
  hour : Int
  minute : Int
  /-- seconds of minute, expressed in integer nanoseconds -/
  sec_ns : Int
deriving DecidableEq, Repr

/-- `Datetime::add_seconds(nanoseconds dt)`: shift the time stamp by `dt`
nanoseconds (the real library also renormalizes the calendar fields; at
the interface boundary the shift is what matters). -/
def Datetime.add_seconds (t : Datetime) (dt : Int) : Datetime :=
  { t with sec_ns := t.sec_ns + dt }

/-- `dso::nanoseconds::sec_factor<double>() = 1e9`. -/
def nanoseconds_sec_factor : ℚ := 1000000000

/-- `static_cast<long>(double)`: truncation toward zero, exact in `ℚ`. -/
def truncToInt (q : ℚ) : Int := if 0 ≤ q then ⌊q⌋ else ⌈q⌉

/-- Interface model of
`dso::from_char<YYYYMMDD, HHMMSSF, nanoseconds>(line + i)` from the
external `datetime` library: starting at index `i` of the NUL-terminated
buffer, read the blank-separated fields
`YYYY MM DD HH MM SS.SSSSSSSSS` (spec section 4.4 step 1); `none` models
the exception thrown on a malformed date. -/
def parseEpochDate (buf : LineBuf) (i : Nat) : Option Datetime :=
  let cs := (buf.take (cstrlen buf)).drop i
  let step : List Char → Option (Nat × List Char) := fun s =>
    let s1 := s.dropWhile (fun c => c = ' ')
    let (ds, rest) := takeDigits s1
    if ds = [] then none else some (digitsToNat ds, rest)
  match step cs with
  | none => none
  | some (y, r1) =>
    match step r1 with
    | none => none
    | some (mo, r2) =>
      match step r2 with
      | none => none
      | some (d, r3) =>
        match step r3 with
        | none => none
        | some (h, r4) =>
          match step r4 with
          | none => none
          | some (mi, r5) =>
            match step r5 with
            | none => none
            | some (sec, r6) =>
              let frac : Nat :=
                if r6.head? = some '.' then
                  let fds := ((takeDigits r6.tail).1.take 9)
                  digitsToNat fds * 10 ^ (9 - fds.length)
                else 0
              some ⟨y, mo, d, h, mi, (sec * 1000000000 + frac : Nat)⟩

/-! ## Data-record structures (`doris_rinex_details.hpp`) -/

namespace doris_rnx

/-- `struct RinexDataRecordHeader` (`doris_rinex_details.hpp` lines
136-163).  The three `signed char` fields are carried as `ℤ` values in
`[-128, 127]` (stores narrow through `toSignedChar`). -/
structure RinexDataRecordHeader where
  m_epoch : Datetime
  m_clock_offset : ℚ
  m_num_stations : Int
  m_flag : Int
  m_clock_flag : Int
deriving DecidableEq, Repr

/-- The header of a default-constructed `DataBlock`: `m_clock_offset` is
member-initialized to the missing sentinel; the other fields of the C++
struct are indeterminate and are modelled as zero (no theorem depends on
them before they are assigned). -/
def initRecordHeader : RinexDataRecordHeader :=
  { m_epoch := ⟨0, 0, 0, 0, 0, 0⟩
    m_clock_offset := RECEIVER_CLOCK_OFFSET_MISSING
    m_num_stations := 0
    m_flag := 0
    m_clock_flag := 0 }

/-- `RinexDataRecordHeader::apply_clock_offset`
(`doris_rinex_details.hpp` lines 150-162).  The C++ member function is
`const`: the embedding returns the computed time stamp together with the
object state after the call, which the body — having no member writes —
leaves equal to the receiver. -/
def RinexDataRecordHeader.apply_clock_offset (h : RinexDataRecordHeader) :
    Datetime × RinexDataRecordHeader :=
  let dt : Int :=
    if h.m_clock_offset = RECEIVER_CLOCK_OFFSET_MISSING then 0
    else truncToInt (h.m_clock_offset * nanoseconds_sec_factor)
  (h.m_epoch.add_seconds dt, h)

/-- `struct RinexObservationValue` (`doris_rinex_details.hpp`). -/
structure RinexObservationValue where
  m_value : ℚ
  m_flag1 : Char
  m_flag2 : Char
deriving DecidableEq, Repr

/-- `struct BeaconObservations` (`doris_rinex_details.hpp`): the id is a
`char[4]`, zero-initialized; `memcpy(id, line, 3)` leaves `id[3]` NUL. -/
structure BeaconObservations where
  m_values : List RinexObservationValue
  m_beacon_id : List Char
deriving DecidableEq, Repr

/-- A freshly default-constructed `BeaconObservations`. -/
def emptyBeaconObservations : BeaconObservations :=
  { m_values := [], m_beacon_id := [nullChar, nullChar, nullChar, nullChar] }

/-- `struct DataBlock` (`doris_rinex_details.hpp`). -/
structure DataBlock where
  mheader : RinexDataRecordHeader
  mbeacon_obs : List BeaconObservations
deriving DecidableEq, Repr

/-- A default-constructed `DataBlock` (the iterator's `m_current`). -/
def initDataBlock : DataBlock :=
  { mheader := initRecordHeader, mbeacon_obs := [] }

end doris_rnx

/-! ## `resolve_block_epoch` (`read_next_data_block.cpp` lines 47-136) -/

/-- `resolve_block_epoch(line, hdr)`: parse one epoch header line into
`hdr`, returning the C status together with the header as mutated so far
(the C++ function writes fields in place as it goes; on a parse failure
of one numeric sub-field it accumulates `status` and keeps going, storing
the stale `val` — modelled by keeping the running `val`, which starts at
an arbitrary value 0 standing for the indeterminate C `int val`). -/
def resolve_block_epoch (buf : LineBuf)
    (hdr : doris_rnx.RinexDataRecordHeader) :
    Int × doris_rnx.RinexDataRecordHeader :=
  if bufGet buf 0 ≠ '>' then (1, hdr)
  else
    let sz := cstrlen buf
    match parseEpochDate buf 2 with
    | none => (2, hdr)
    | some ep =>
      let hdr := { hdr with m_epoch := ep }
      /- epoch flag: memcpy(tbuf, line + 31, 3); tbuf[3] = NUL -/
      let tbuf : LineBuf := [bufGet buf 31, bufGet buf 32, bufGet buf 33,
        nullChar]
      let val0 : Int := 0
      let (s1, val1) :=
        match fromCharsInt tbuf (skipwsIdx tbuf 0) 4 with
        | some v => ((0 : Int), v)
        | none => (1, val0)
      let hdr := { hdr with m_flag := toSignedChar val1 }
      /- number of stations: memcpy(tbuf, line + 34, 3) -/
      let tbuf2 : LineBuf := [bufGet buf 34, bufGet buf 35, bufGet buf 36,
        nullChar]
      let (s2, val2) :=
        match fromCharsInt tbuf2 (skipwsIdx tbuf2 0) 4 with
        | some v => ((0 : Int), v)
        | none => (1, val1)
      let hdr := { hdr with m_num_stations := toSignedChar val2 }
      /- receiver clock offset: all-blank 13-char field means missing -/
      let has_clock_offset :=
        (List.range 13).any (fun i => bufGet buf (43 + i) ≠ ' ')
      let (s3, hdr) :=
        if has_clock_offset then
          match fromCharsQ buf (skipwsIdx buf 43) sz with
          | some q => ((0 : Int), { hdr with m_clock_offset := q })
          | none => (1, hdr)
        else
          ((0 : Int),
            { hdr with
                m_clock_offset := doris_rnx.RECEIVER_CLOCK_OFFSET_MISSING })
      /- receiver clock offset flag -/
      let (s4, val4) :=
        match fromCharsInt buf (skipwsIdx buf 56) sz with
        | some v => ((0 : Int), v)
        | none => (1, val2)
      let hdr := { hdr with m_clock_flag := toSignedChar val4 }
      (s1 + s2 + s3 + s4, hdr)

/-! ## `lines_per_beacon` (`doris_rinex.hpp` lines 101-108) -/

/-- `DorisObsRinex::lines_per_beacon`: `obs` is `m_obs_codes.size()`
stored in a C `int`; the function computes
`1 + (!(obs % 5) ? (obs / 5 - 1) : (obs / 5))`. -/
def lines_per_beacon (n_obs_codes : Nat) : Int :=
  let obs : Int := (n_obs_codes : Int)
  1 + (if obs % 5 = 0 then obs / 5 - 1 else obs / 5)

/-! ## The input stream (`std::ifstream` at its interface boundary)

`get_next_data_block` consumes the stream one line at a time through
`std::istream::getline(char*, streamsize)`.  The stream is modelled as
the list of its remaining physical lines plus the `failbit`/`eofbit`
flags; `getline` on an already-failed stream does nothing (failed
sentry), and `getline` at end of input stores a single NUL in the buffer,
leaving the rest of the buffer — the stale tail of the previously read
line — in place, exactly as the C++ buffer behaves. -/

structure IStream where
  lines : List (List Char)
  fail : Bool
  eofbit : Bool
deriving DecidableEq, Repr

/-- Write line `l` and its NUL terminator into the buffer, keeping the
stale content beyond it. -/
def writeLine (buf : LineBuf) (l : List Char) : LineBuf :=
  l ++ [nullChar] ++ buf.drop (l.length + 1)

/-- `m_stream.getline(line, MAX_RECORD_CHARS)`: returns the stream after
the call, the buffer after the call, and whether the stream evaluates
to true afterwards.  (The source lines are all shorter than
`MAX_RECORD_CHARS - 1`, so the truncation branch never triggers.) -/
def getlineCall (st : IStream) (buf : LineBuf) :
    IStream × LineBuf × Bool :=
  if st.fail then (st, buf, false)
  else
    match st.lines with
    | [] => ({ st with fail := true, eofbit := true },
        writeLine buf [], false)
    | l :: rest => ({ st with lines := rest }, writeLine buf l, true)

/-! ## `get_next_data_block` (`read_next_data_block.cpp` lines 140-256) -/

/-- The header metadata of an already-constructed `DorisObsRinex` that
`get_next_data_block` reads: `m_obs_codes.size()` and
`m_obs_scale_factors` (index-aligned with the codes, `std::vector<int>`).
The class invariant `m_obs_codes.size() == m_obs_scale_factors.size()`
is kept as a separate hypothesis where it matters. -/
structure RnxConfig where
  n_obs_codes : Nat
  m_obs_scale_factors : List Int
deriving Repr

/-- `m_obs_scale_factors[curobs]` (in-range in every reachable use by the
class invariant; reading out of range — UB in C++ — is given the junk
value 1 so that it cannot make a theorem hold vacuously). -/
def scaleAt (scales : List Int) (i : Nat) : Int := scales.getD i 1

/-- Start column of observation slot `curobs % 5` on the current line. -/
def obsSlotBase (curobs : Nat) : Nat :=
  3 + (curobs % doris_rnx.MAX_OBS_PER_DATA_LINE) * 16

/-- The local `char buf[16]` after `memcpy(buf, line + base, 14)`: the
14-byte numeric field followed by the two NUL bytes that the
zero-initialized tail of `buf` keeps (bytes 14 and 15 are never
overwritten). -/
def obsFieldBuf (curobs : Nat) (line : LineBuf) : LineBuf :=
  bufSlice line (obsSlotBase curobs) (obsSlotBase curobs + 14) ++
    [nullChar, nullChar]

/-- One observation slot of the current data line
(`read_next_data_block.cpp` lines 206-249): copy the 14-byte numeric
field at column `3 + (curobs % 5) * 16` into the NUL-padded `buf[16]`,
take the two quality-flag characters after it, decode blank to the
missing sentinel or parse the float, then divide by the scale factor at
index `curobs`.  `none` models the `return 2` on a failed numeric parse.
Note the division is applied to the sentinel as well (the C code shares
the `val /= ...` statement between both branches). -/
def decodeObsSlot (scales : List Int) (curobs : Nat) (line : LineBuf) :
    Option doris_rnx.RinexObservationValue :=
  let obsbuf := obsFieldBuf curobs line
  let flagm1 := bufGet line (obsSlotBase curobs + 14)
  let flagm2 := bufGet line (obsSlotBase curobs + 15)
  let valOpt : Option ℚ :=
    if bufIsEmpty obsbuf then some doris_rnx.OBSERVATION_VALUE_MISSING
    else fromCharsQ obsbuf (skipwsIdx obsbuf 0) 16
  match valOpt with
  | none => none
  | some v =>
      some ⟨v / (scaleAt scales curobs : ℚ), flagm1, flagm2⟩

/-- State threaded through the two nested loops of
`get_next_data_block`. -/
structure BlockLoopState where
  st : IStream
  line : LineBuf
  bo : doris_rnx.BeaconObservations
deriving Repr

/-- The "should we change/get the next line?" block heading each inner
iteration (`read_next_data_block.cpp` lines 187-204): on a slot boundary
read the next physical line — unchecked, as in the source — and, on the
first line of the beacon group, require the `'D'` marker and record the
2-character beacon code (`memcpy` of 3 bytes into the zero-initialized
`char[4]`).  `Sum.inl` is the early `return 1`. -/
def obsLineStep (curobs curline : Nat) (s : BlockLoopState) :
    Sum (Int × BlockLoopState) (BlockLoopState × Nat) :=
  if curobs % doris_rnx.MAX_OBS_PER_DATA_LINE = 0 then
    let g := getlineCall s.st s.line
    let st2 := g.1
    let line2 := g.2.1
    if curline = 0 then
      if bufGet line2 0 ≠ 'D' then
        Sum.inl (1, { s with st := st2, line := line2 })
      else
        let bo2 := { s.bo with
          m_beacon_id := [bufGet line2 0, bufGet line2 1,
            bufGet line2 2, nullChar] }
        Sum.inr ({ st := st2, line := line2, bo := bo2 }, curline + 1)
    else
      Sum.inr ({ s with st := st2, line := line2 }, curline + 1)
  else Sum.inr (s, curline)

/-- The inner `while (curobs < m_obs_codes.size())` loop for one beacon
(`read_next_data_block.cpp` lines 186-252), recursing on the number of
slots still to fill (`remaining = n_obs_codes - curobs`).  Returns
`Sum.inl code` for the early `return code` paths and `Sum.inr` with the
updated state on normal completion. -/
def obsLoop (cfg : RnxConfig) (curobs curline : Nat)
    (s : BlockLoopState) :
    Nat → Sum (Int × BlockLoopState) BlockLoopState
  | 0 => Sum.inr s
  | remaining + 1 =>
    match obsLineStep curobs curline s with
    | Sum.inl err => Sum.inl err
    | Sum.inr (s2, curline2) =>
      match decodeObsSlot cfg.m_obs_scale_factors curobs s2.line with
      | none => Sum.inl (2, s2)
      | some v =>
          let s3 := { s2 with
            bo := { s2.bo with m_values := s2.bo.m_values ++ [v] } }
          obsLoop cfg (curobs + 1) curline2 s3 remaining

/-- The outer `for (beacon = 0; beacon < m_num_stations; beacon++)` loop
(`read_next_data_block.cpp` lines 175-253), recursing on the number of
beacons still to read.  `acc` is `block.mbeacon_obs` built so far (the C
code `emplace_back`s the beacon first and fills it in place, so an early
return keeps the partial beacon). -/
def beaconLoop (cfg : RnxConfig) (st : IStream) (line : LineBuf)
    (acc : List doris_rnx.BeaconObservations) :
    Nat →
      Sum (Int × IStream × LineBuf × List doris_rnx.BeaconObservations)
        (IStream × LineBuf × List doris_rnx.BeaconObservations)
  | 0 => Sum.inr (st, line, acc)
  | remaining + 1 =>
    let s0 : BlockLoopState :=
      { st := st, line := line, bo := doris_rnx.emptyBeaconObservations }
    match obsLoop cfg 0 0 s0 cfg.n_obs_codes with
    | Sum.inl (code, s) => Sum.inl (code, s.st, s.line, acc ++ [s.bo])
    | Sum.inr s =>
        beaconLoop cfg s.st s.line (acc ++ [s.bo]) remaining

/-- Result of calling a `noexcept` C++ member function: either the call
returns a value, or an exception escapes into the `noexcept` boundary
and the process is torn down by `std::terminate` — the call never
returns. -/
inductive CallResult (α : Type) : Type
  | terminated
  | ret (v : α)
deriving Repr

/-- `DorisObsRinex::get_next_data_block(block)`
(`read_next_data_block.cpp` lines 140-256).  `buf0` stands for the
indeterminate content of the local `char line[MAX_RECORD_CHARS]` at
function entry; `block` is passed in by reference and returned as
mutated.  The status is the C return value: `-1` for EOF at the epoch
header position, `0` for success, positive for errors.

After the epoch header resolves, the code calls
`block.mbeacon_obs.clear()` and then
`block.mbeacon_obs.reserve(block.mheader.m_num_stations)` (line 167):
when the stored station count is negative (a declared count of
128..255 wrapped by the `signed char` field), its conversion to
`size_t` exceeds `max_size()` and `reserve` throws `std::length_error`
inside this `noexcept` function — `std::terminate`, modelled by
`CallResult.terminated`.  For a nonnegative count (at most 127) the
`reserve` has no observable effect on the vector's contents. -/
def get_next_data_block (cfg : RnxConfig) (st : IStream) (buf0 : LineBuf)
    (block : doris_rnx.DataBlock) :
    CallResult (Int × doris_rnx.DataBlock × IStream) :=
  let g := getlineCall st buf0
  let st1 := g.1
  let line1 := g.2.1
  if ¬g.2.2 then
    if st1.eofbit then .ret (-1, block, st1) else .ret (1, block, st1)
  else
    let r := resolve_block_epoch line1 block.mheader
    let rs := r.1
    let hdr := r.2
    if rs ≠ 0 then .ret (1, { block with mheader := hdr }, st1)
    else
      /- block.mbeacon_obs.clear(); block.mbeacon_obs.reserve(...) -/
      if hdr.m_num_stations < 0 then .terminated
      else
        let nBeacons : Nat := hdr.m_num_stations.toNat
        match beaconLoop cfg st1 line1 [] nBeacons with
        | Sum.inl (code, st2, _line2, acc) =>
            .ret (code, { mheader := hdr, mbeacon_obs := acc }, st2)
        | Sum.inr (st2, _line2, acc) =>
            .ret (0, { mheader := hdr, mbeacon_obs := acc }, st2)

/-- The status returned by a `get_next_data_block` call, or `none` when
the call never returned (`std::terminate`). -/
def returnedStatus (c : CallResult (Int × doris_rnx.DataBlock × IStream)) :
    Option Int :=
  match c with
  | .terminated => none
  | .ret r => some r.1

/-- The block as left by a completed `get_next_data_block` call, or
`none` when the call never returned (`std::terminate`). -/
def returnedBlock (c : CallResult (Int × doris_rnx.DataBlock × IStream)) :
    Option doris_rnx.DataBlock :=
  match c with
  | .terminated => none
  | .ret r => some r.2.1

/-! ## The iteration adapter (`doris_rinex.hpp` lines 182-231 and
`src/unnamed/part_000`) -/

/-- Outcome of one `operator++` call as seen by the caller: a new block
was produced, the iterator became (or already was) the end iterator, or
the call threw `std::runtime_error` (carrying the positive status that
triggered it). -/
inductive StepOutcome : Type
  | ok
  | atEnd
  | err (code : Int)
  /-- the `get_next_data_block` call never returned: the process was
  torn down by `std::terminate` (see `CallResult.terminated`); nothing
  further is observable -/
  | terminated
deriving DecidableEq, Repr

/-- The iterator state: `m_rnx` null-ness and `m_current`. -/
structure IterState where
  alive : Bool
  current : doris_rnx.DataBlock
deriving DecidableEq, Repr

/-- The freshly primed iterator state before the first `++` (the private
constructor default-constructs `m_current`). -/
def initIterState : IterState :=
  { alive := true, current := doris_rnx.initDataBlock }

/-- Result of one `operator++` call. -/
structure IterStep where
  outcome : StepOutcome
  iter : IterState
  stream : IStream
deriving DecidableEq, Repr

/-- `DorisObsRinex::iterator::operator++` (`src/unnamed/part_000` lines
5-22): a null `m_rnx` returns immediately (the caller observes the end
iterator); otherwise `get_next_data_block` runs on the shared stream:
status 0 keeps the new block, negative status nulls `m_rnx` (end), and a
positive status throws — note `m_rnx` is left non-null on the throwing
path.  `buf0` is the indeterminate initial content of the callee's local
line buffer for this call. -/
def iterNext (cfg : RnxConfig) (it : IterState) (st : IStream)
    (buf0 : LineBuf) : IterStep :=
  if ¬it.alive then { outcome := .atEnd, iter := it, stream := st }
  else
    match get_next_data_block cfg st buf0 it.current with
    | .terminated =>
        /- the call tore the process down; the iterator and stream
           fields of this step are never observed and are kept at their
           pre-call values -/
        { outcome := .terminated, iter := it, stream := st }
    | .ret r =>
        let status := r.1
        let blk := r.2.1
        let st2 := r.2.2
        if status = 0 then
          { outcome := .ok, iter := { it with current := blk },
            stream := st2 }
        else if status < 0 then
          { outcome := .atEnd, iter := { alive := false, current := blk },
            stream := st2 }
        else
          { outcome := .err status, iter := { it with current := blk },
            stream := st2 }

/-! ## The constructor (`doris_rinex.cpp` lines 9-31)

`DorisObsRinex::DorisObsRinex(const char*)` opens the stream and calls
`read_header()` (declared `noexcept` in `doris_rinex.hpp`; its definition
is header-parsing code outside the data-block reader).  The constructor
is parametrized here by the status `read_header()` reports, which is all
its control flow depends on. -/

/-- How a constructor call ends, as observed by the caller. -/
inductive CtorOutcome : Type
  | constructed
  | threw
deriving DecidableEq, Repr

/-- The `try` block of the constructor: `read_header()` is called and a
nonzero status makes the block throw `std::runtime_error`. -/
def DorisObsRinexCtorBody (read_header_status : Int) : Except Unit Unit :=
  if read_header_status ≠ 0 then .error () else .ok ()

/-- `DorisObsRinex::DorisObsRinex` (`doris_rinex.cpp` lines 9-31): the
`try` block is wrapped in `catch (std::exception &)` — which matches the
`std::runtime_error` thrown inside the very same `try` — whose handler
only prints to `stderr` and falls off the end, so the constructor
completes normally on every path. -/
def DorisObsRinexCtor (read_header_status : Int) : CtorOutcome :=
  match DorisObsRinexCtorBody read_header_status with
  | .error _ => .constructed
  | .ok _ => .constructed

/-! ## Concrete input material for witnesses and counterexamples -/

/-- A stand-in for the indeterminate content of the local
`char line[MAX_RECORD_CHARS]` buffer at function entry. -/
def initLineBuf : LineBuf := List.replicate 124 nullChar

/-- A well-formed 58-character epoch header line with the given 3-char
number-of-stations field (columns 34-37), epoch flag 0, receiver clock
offset `-4.432841287` and clock flag 0. -/
def mkEpochLine (stations : String) : List Char :=
  ("> 2020 01 01 01 41 53.000000000  0" ++ stations ++
    "       -4.432841287 0").toList

/-- One 16-byte observation slot: the value right-justified in the
14-byte numeric field, followed by two blank quality flags. -/
def obsSlotChars (s : String) : List Char :=
  let cs := s.toList
  List.replicate (14 - cs.length) ' ' ++ cs ++ [' ', ' ']

/-- One 16-byte observation slot that is entirely blank. -/
def blankSlotChars : List Char := List.replicate 16 ' '

/-- A beacon data line with three observation slots. -/
def beaconLine3 (id : String) : List Char :=
  (id).toList ++ obsSlotChars "10.0" ++ obsSlotChars "-3.5" ++
    obsSlotChars "7"

/-- A full-width beacon data line with five observation slots (the first
line of a beacon group when six observables are declared). -/
def beaconLine5 : List Char :=
  ("D01").toList ++ obsSlotChars "10.0" ++ obsSlotChars "-3.5" ++
    obsSlotChars "7" ++ obsSlotChars "8.25" ++ obsSlotChars "9"

/-- Header metadata: a single declared observation code with scale
factor 2. -/
def cfgOneScale2 : RnxConfig :=
  { n_obs_codes := 1, m_obs_scale_factors := [2] }

/-- Header metadata: three declared observation codes, all scale 1. -/
def cfgThree : RnxConfig :=
  { n_obs_codes := 3, m_obs_scale_factors := [1, 1, 1] }

/-- Header metadata: six declared observation codes, all scale 1
(`lines_per_beacon = 2`). -/
def cfgSix : RnxConfig :=
  { n_obs_codes := 6, m_obs_scale_factors := [1, 1, 1, 1, 1, 1] }

/-- A fresh stream over the given data-section lines. -/
def mkStream (ls : List (List Char)) : IStream :=
  { lines := ls, fail := false, eofbit := false }

end dso

namespace dso

/-! # Supporting lemmas -/

/-- The first character `getline` leaves in the buffer is the first
character of the line read (NUL for an empty line). -/
theorem bufGet_writeLine_zero (buf : LineBuf) (l : List Char) :
    bufGet (writeLine buf l) 0 = l.headD nullChar := by
  cases l <;> rfl

/-- `getline` on a clean stream with a pending line delivers that line. -/
theorem getlineCall_cons {st : IStream} {L : List Char}
    {rest : List (List Char)} (hf : st.fail = false)
    (hl : st.lines = L :: rest) (buf : LineBuf) :
    getlineCall st buf = ({ st with lines := rest }, writeLine buf L, true)
    := by
  simp [getlineCall, hf, hl]

/-- `resolve_block_epoch` rejects a line whose first byte is not `'>'`
before writing any header field. -/
theorem resolve_block_epoch_bad_marker {buf : LineBuf}
    (hne : bufGet buf 0 ≠ '>') (hdr : doris_rnx.RinexDataRecordHeader) :
    resolve_block_epoch buf hdr = (1, hdr) := by
  unfold resolve_block_epoch
  rw [if_pos hne]

/-- `get_next_data_block` on a stream whose next line does not start with
`'>'` returns status 1 and leaves the block untouched. -/
theorem get_next_data_block_bad_marker {cfg : RnxConfig} {st : IStream}
    {L : List Char} {rest : List (List Char)}
    (hf : st.fail = false) (hl : st.lines = L :: rest)
    (hne : L.headD nullChar ≠ '>') (buf : LineBuf)
    (block : doris_rnx.DataBlock) :
    get_next_data_block cfg st buf block =
      .ret (1, block, { st with lines := rest }) := by
  have hm : bufGet (writeLine buf L) 0 ≠ '>' := by
    rw [bufGet_writeLine_zero]; exact hne
  unfold get_next_data_block
  rw [getlineCall_cons hf hl]
  simp [resolve_block_epoch_bad_marker hm]

/-- `operator++` on the end iterator (`m_rnx == nullptr`) does nothing. -/
theorem iterNext_dead {cfg : RnxConfig} {it : IterState} {st : IStream}
    {b : LineBuf} (h : it.alive = false) :
    iterNext cfg it st b = ⟨.atEnd, it, st⟩ := by
  simp [iterNext, h]

/-- `operator++` on a live iterator whose `get_next_data_block` call
tears the process down. -/
theorem iterNext_alive_terminated {cfg : RnxConfig} {it : IterState}
    {st : IStream} {b : LineBuf} (ha : it.alive = true)
    (hres : get_next_data_block cfg st b it.current = .terminated) :
    iterNext cfg it st b = ⟨.terminated, it, st⟩ := by
  simp [iterNext, ha, hres]

/-- `operator++` on a live iterator whose `get_next_data_block` call
returns, written out by the returned status. -/
theorem iterNext_alive_ret {cfg : RnxConfig} {it : IterState}
    {st : IStream} {b : LineBuf} {r : Int × doris_rnx.DataBlock × IStream}
    (ha : it.alive = true)
    (hres : get_next_data_block cfg st b it.current = .ret r) :
    iterNext cfg it st b =
      (if r.1 = 0 then ⟨.ok, { it with current := r.2.1 }, r.2.2⟩
       else if r.1 < 0 then ⟨.atEnd, ⟨false, r.2.1⟩, r.2.2⟩
       else ⟨.err r.1, { it with current := r.2.1 }, r.2.2⟩) := by
  simp [iterNext, ha, hres]

/-- A successful line-advance step never touches the values list of the
beacon under construction (it can only set the beacon id). -/
theorem obsLineStep_inr_values {curobs curline : Nat}
    {s s2 : BlockLoopState} {cl2 : Nat}
    (h : obsLineStep curobs curline s = Sum.inr (s2, cl2)) :
    s2.bo.m_values = s.bo.m_values := by
  simp only [obsLineStep] at h
  split at h
  · split at h
    · split at h
      · simp at h
      · injection h with h1
        injection h1 with ha hb
        subst ha
        rfl
    · injection h with h1
      injection h1 with ha hb
      subst ha
      rfl
  · injection h with h1
    injection h1 with ha hb
    subst ha
    rfl

/-- The early return of the line-advance step carries status 1. -/
theorem obsLineStep_inl_code {curobs curline : Nat}
    {s : BlockLoopState} {e : Int × BlockLoopState}
    (h : obsLineStep curobs curline s = Sum.inl e) : e.1 = 1 := by
  simp only [obsLineStep] at h
  split at h
  · split at h
    · split at h
      · injection h with h1
        subst h1
        rfl
      · simp at h
    · simp at h
  · simp at h

/-- A completed inner loop appended exactly `rem` values to the beacon
under construction. -/
theorem obsLoop_inr_length (cfg : RnxConfig) :
    ∀ (rem curobs curline : Nat) (s s2 : BlockLoopState),
      obsLoop cfg curobs curline s rem = Sum.inr s2 →
      s2.bo.m_values.length = s.bo.m_values.length + rem := by
  intro rem
  induction rem with
  | zero =>
    intro curobs curline s s2 h
    simp only [obsLoop] at h
    injection h with h1
    subst h1
    simp
  | succ rem ih =>
    intro curobs curline s s2 h
    simp only [obsLoop] at h
    split at h
    · simp at h
    · rename_i sx cl2 hstep
      split at h
      · simp at h
      · rename_i v hdec
        have hlen := ih (curobs + 1) cl2 _ s2 h
        have hbo := obsLineStep_inr_values hstep
        simp only [List.length_append, List.length_singleton] at hlen
        rw [hbo] at hlen
        omega

/-- An early return of the inner loop carries status 1 or 2. -/
theorem obsLoop_inl_code (cfg : RnxConfig) :
    ∀ (rem curobs curline : Nat) (s : BlockLoopState)
      (e : Int × BlockLoopState),
      obsLoop cfg curobs curline s rem = Sum.inl e →
      e.1 = 1 ∨ e.1 = 2 := by
  intro rem
  induction rem with
  | zero =>
    intro curobs curline s e h
    simp only [obsLoop] at h
    simp at h
  | succ rem ih =>
    intro curobs curline s e h
    simp only [obsLoop] at h
    split at h
    · rename_i ex hstep
      injection h with h1
      subst h1
      exact Or.inl (obsLineStep_inl_code hstep)
    · rename_i sx cl2 hstep
      split at h
      · injection h with h1
        subst h1
        exact Or.inr rfl
      · rename_i v hdec
        exact ih (curobs + 1) cl2 _ e h

/-- A completed outer loop appended exactly `rem` beacons, each holding
exactly `cfg.n_obs_codes` observation values. -/
theorem beaconLoop_inr_shape (cfg : RnxConfig) :
    ∀ (rem : Nat) (st : IStream) (line : LineBuf)
      (acc : List doris_rnx.BeaconObservations)
      (out : IStream × LineBuf × List doris_rnx.BeaconObservations),
      beaconLoop cfg st line acc rem = Sum.inr out →
      out.2.2.length = acc.length + rem ∧
      ∀ bo ∈ out.2.2, bo ∈ acc ∨ bo.m_values.length = cfg.n_obs_codes := by
  intro rem
  induction rem with
  | zero =>
    intro st line acc out h
    simp only [beaconLoop] at h
    injection h with h1
    subst h1
    exact ⟨by simp, fun bo hbo => Or.inl hbo⟩
  | succ rem ih =>
    intro st line acc out h
    simp only [beaconLoop] at h
    split at h
    · simp at h
    · rename_i sx hstep
      obtain ⟨hl, hm⟩ := ih sx.st sx.line (acc ++ [sx.bo]) out h
      have hobs := obsLoop_inr_length cfg cfg.n_obs_codes 0 0 _ sx hstep
      simp only [doris_rnx.emptyBeaconObservations, List.length_nil,
        Nat.zero_add] at hobs
      refine ⟨by simp at hl; omega, ?_⟩
      intro bo hbo
      rcases hm bo hbo with hin | hlen2
      · rcases List.mem_append.mp hin with h1 | h2
        · exact Or.inl h1
        · right
          have hb : bo = sx.bo := by simpa using h2
          rw [hb, hobs]
      · exact Or.inr hlen2

/-- An early return of the outer loop carries status 1 or 2. -/
theorem beaconLoop_inl_code (cfg : RnxConfig) :
    ∀ (rem : Nat) (st : IStream) (line : LineBuf)
      (acc : List doris_rnx.BeaconObservations)
      (out : Int × IStream × LineBuf × List doris_rnx.BeaconObservations),
      beaconLoop cfg st line acc rem = Sum.inl out →
      out.1 = 1 ∨ out.1 = 2 := by
  intro rem
  induction rem with
  | zero =>
    intro st line acc out h
    simp only [beaconLoop] at h
    simp at h
  | succ rem ih =>
    intro st line acc out h
    simp only [beaconLoop] at h
    split at h
    · rename_i code sx hstep
      injection h with h1
      subst h1
      have := obsLoop_inl_code cfg cfg.n_obs_codes 0 0 _ (code, sx) hstep
      simpa using this
    · rename_i sx hstep
      exact ih sx.st sx.line (acc ++ [sx.bo]) out h

/-! # Theorems -/

/-- **C9.** For every number `n` of declared observation codes, the
derived per-beacon line span `lines_per_beacon` equals `⌈n / 5⌉`:
counts 1..5 give 1, counts 6..10 give 2, and 11 gives 3. -/
theorem C9_lines_per_beacon_is_ceil :
    (∀ n : Nat, lines_per_beacon n = ⌈(n : ℚ) / 5⌉) ∧
      lines_per_beacon 1 = 1 ∧ lines_per_beacon 5 = 1 ∧
      lines_per_beacon 6 = 2 ∧ lines_per_beacon 10 = 2 ∧
      lines_per_beacon 11 = 3 := by
  have key : ∀ n : Nat, lines_per_beacon n = ((n : Int) + 4) / 5 := by
    intro n
    show (1 + if (n : Int) % 5 = 0 then (n : Int) / 5 - 1 else (n : Int) / 5)
      = ((n : Int) + 4) / 5
    split <;> omega
  refine ⟨?_, by rw [key]; rfl, by rw [key]; rfl, by rw [key]; rfl,
    by rw [key]; rfl, by rw [key]; rfl⟩
  intro n
  rw [key, eq_comm, Int.ceil_eq_iff]
  have h1 : 5 * (((n : Int) + 4) / 5) ≤ (n : Int) + 4 := by omega
  have h2 : (n : Int) ≤ 5 * (((n : Int) + 4) / 5) := by omega
  have hq1 : (5 : ℚ) * (((n : Int) + 4) / 5 : Int) - 5 < (n : ℚ) := by
    exact_mod_cast (show (5 * (((n : Int) + 4) / 5) - 5 : Int) < (n : Int)
      by omega)
  have hq2 : (n : ℚ) ≤ (5 : ℚ) * (((n : Int) + 4) / 5 : Int) := by
    exact_mod_cast h2
  constructor
  · rw [lt_div_iff₀ (by norm_num : (0 : ℚ) < 5)]
    linarith
  · rw [div_le_iff₀ (by norm_num : (0 : ℚ) < 5)]
    linarith

/-- **C7 (counterexample).** The claim — for a frequency-bearing type
construction succeeds iff the *given* frequency is 1 or 2 and fails with
InvalidFrequency otherwise — is false on the code: the member-init list
narrows the `int` argument into the signed 8-bit `m_freq` field before
the range check (`observationtype.cpp` line 82), so `freq = 257` wraps
to 1 and construction of a phase code succeeds, storing frequency 1,
although 257 is neither 1 nor 2. -/
theorem C7_freq_wrap_counterexample :
    DorisObservationCode.make .phase 257 = .ok ⟨.phase, 1⟩ ∧
      ¬((257 : Int) = 1 ∨ (257 : Int) = 2) :=
  ⟨rfl, by decide⟩

/-- **C7 (amended).** Observation-code construction: for a
frequency-bearing type (phase, pseudorange, power_level) construction
succeeds exactly when the given frequency, *as narrowed into the signed
8-bit `m_freq` field* (two's-complement wrap), is 1 or 2 — storing that
narrowed frequency — and fails with InvalidFrequency otherwise; for
every other type construction succeeds for any input frequency and the
stored frequency is forced to 0. -/
theorem C7_obs_code_frequency_validation :
    ∀ (t : DorisObservationType) (f : Int),
      ((t = .phase ∨ t = .pseudorange ∨ t = .power_level) →
        ((∃ c, DorisObservationCode.make t f = .ok c) ↔
          (toSignedChar f = 1 ∨ toSignedChar f = 2)) ∧
        ((toSignedChar f = 1 ∨ toSignedChar f = 2) →
          DorisObservationCode.make t f = .ok ⟨t, toSignedChar f⟩) ∧
        (¬(toSignedChar f = 1 ∨ toSignedChar f = 2) →
          DorisObservationCode.make t f = .error .invalidFrequency)) ∧
      (¬(t = .phase ∨ t = .pseudorange ∨ t = .power_level) →
        DorisObservationCode.make t f = .ok ⟨t, 0⟩) := by
  intro t f
  constructor
  · intro ht
    have hf : dobstype_has_frequency t = true := by
      rcases ht with h | h | h <;> rw [h] <;> rfl
    refine ⟨?_, ?_, ?_⟩
    · constructor
      · rintro ⟨c, hc⟩
        by_contra hnf
        have hlt : toSignedChar f < 1 ∨ toSignedChar f > 2 := by omega
        simp [DorisObservationCode.make, hf, hlt] at hc
      · intro hor
        have hlt : ¬(toSignedChar f < 1 ∨ toSignedChar f > 2) := by omega
        exact ⟨⟨t, toSignedChar f⟩,
          by simp [DorisObservationCode.make, hf, hlt]⟩
    · intro hor
      have hlt : ¬(toSignedChar f < 1 ∨ toSignedChar f > 2) := by omega
      simp [DorisObservationCode.make, hf, hlt]
    · intro hnf
      have hlt : toSignedChar f < 1 ∨ toSignedChar f > 2 := by omega
      simp [DorisObservationCode.make, hf, hlt]
  · intro ht
    have hf : dobstype_has_frequency t = false := by
      cases t <;> simp_all <;> rfl
    simp [DorisObservationCode.make, hf]

/-- Witness for C7 (amended) at concrete inputs: type=phase,frequency=3
(narrowed: 3) fails with InvalidFrequency; type=phase,frequency=1
succeeds storing frequency 1; type=phase,frequency=257 (narrowed: 1)
succeeds storing frequency 1; type=ground_pressure,frequency=5 succeeds
storing frequency 0. -/
theorem C7_obs_code_frequency_validation_witness :
    DorisObservationCode.make .phase 3 = .error .invalidFrequency ∧
    DorisObservationCode.make .phase 1 = .ok ⟨.phase, 1⟩ ∧
    DorisObservationCode.make .phase 257 = .ok ⟨.phase, 1⟩ ∧
    DorisObservationCode.make .ground_pressure 5 = .ok ⟨.ground_pressure, 0⟩
    :=
  ⟨((C7_obs_code_frequency_validation .phase 3).1 (Or.inl rfl)).2.2
      (by decide),
   by
    have h := ((C7_obs_code_frequency_validation .phase 1).1
      (Or.inl rfl)).2.1 (Or.inl (by decide))
    rw [h]
    exact rfl,
   by
    have h := ((C7_obs_code_frequency_validation .phase 257).1
      (Or.inl rfl)).2.1 (Or.inl (by decide))
    rw [h]
    exact rfl,
   (C7_obs_code_frequency_validation .ground_pressure 5).2 (by simp)⟩

/-- **C10.** `apply_clock_offset` is a pure read: it returns the epoch
time stamp shifted by the recorded receiver clock offset converted to
(truncated) nanoseconds — or unshifted when the offset equals the missing
sentinel — and leaves every field of the header, in particular
`m_epoch`, unchanged. -/
theorem C10_apply_clock_offset_pure :
    ∀ h : doris_rnx.RinexDataRecordHeader,
      ((h.apply_clock_offset).2 = h) ∧
      ((h.apply_clock_offset).2.m_epoch = h.m_epoch) ∧
      (h.m_clock_offset = doris_rnx.RECEIVER_CLOCK_OFFSET_MISSING →
        (h.apply_clock_offset).1 = h.m_epoch) ∧
      (h.m_clock_offset ≠ doris_rnx.RECEIVER_CLOCK_OFFSET_MISSING →
        (h.apply_clock_offset).1 =
          h.m_epoch.add_seconds
            (truncToInt (h.m_clock_offset * nanoseconds_sec_factor))) := by
  intro h
  refine ⟨rfl, rfl, ?_, ?_⟩
  · intro hc
    simp [doris_rnx.RinexDataRecordHeader.apply_clock_offset, hc,
      Datetime.add_seconds]
  · intro hc
    simp [doris_rnx.RinexDataRecordHeader.apply_clock_offset, hc]

/-- Witness for C10 at concrete headers: one with the missing-offset
sentinel (time stamp returned unshifted), one with offset 1.5 s (time
stamp shifted by 1500000000 ns), both leaving the header unchanged. -/
theorem C10_apply_clock_offset_pure_witness :
    (let h0 : doris_rnx.RinexDataRecordHeader :=
      { m_epoch := ⟨2020, 1, 1, 1, 41, 53000000000⟩
        m_clock_offset := doris_rnx.RECEIVER_CLOCK_OFFSET_MISSING
        m_num_stations := 2, m_flag := 0, m_clock_flag := 0 }
     (h0.apply_clock_offset).2 = h0 ∧ (h0.apply_clock_offset).1 =
       h0.m_epoch) ∧
    (let h1 : doris_rnx.RinexDataRecordHeader :=
      { m_epoch := ⟨2020, 1, 1, 1, 41, 53000000000⟩
        m_clock_offset := 3 / 2
        m_num_stations := 2, m_flag := 0, m_clock_flag := 0 }
     (h1.apply_clock_offset).2 = h1 ∧ (h1.apply_clock_offset).1 =
       h1.m_epoch.add_seconds 1500000000) :=
  ⟨⟨(C10_apply_clock_offset_pure _).1,
    (C10_apply_clock_offset_pure _).2.2.1 rfl⟩,
   ⟨(C10_apply_clock_offset_pure _).1, by
      have := (C10_apply_clock_offset_pure
        { m_epoch := ⟨2020, 1, 1, 1, 41, 53000000000⟩
          m_clock_offset := 3 / 2
          m_num_stations := 2, m_flag := 0, m_clock_flag := 0 }).2.2.2
        (by decide)
      rw [this]
      norm_num [truncToInt, nanoseconds_sec_factor]⟩⟩

/-- **C5 (counterexample).** The claim — every well-formed file yields
DataBlocks with exactly as many BeaconObservations as the epoch header's
declared station count — fails when the declared count exceeds 127: the
count is stored into the `signed char` `m_num_stations`
(`doris_rinex_details.hpp` line 144).  A well-formed epoch declaring 300
stations (followed by 300 beacon groups) stores the wrapped value 44
(300 reduced into [-128, 127]); the `reserve(44)` is harmless, the
beacon loop reads only 44 groups, and the call returns a status-0 block
holding 44 ≠ 300 BeaconObservations.  (For declared counts 128..255 the stored count is
negative and the `reserve` call aborts the process instead — see
`get_next_data_block`.) -/
theorem C5_declared_count_counterexample :
    (let st0 := mkStream
        (mkEpochLine "300" :: List.replicate 300 (beaconLine3 "D01"))
     let R := get_next_data_block cfgThree st0 initLineBuf
        doris_rnx.initDataBlock
     bufSlice (mkEpochLine "300") 34 37 = ("300").toList ∧
     returnedStatus R = some 0 ∧
     (returnedBlock R).map
        (fun (b : doris_rnx.DataBlock) => b.mheader.m_num_stations) =
       some 44 ∧
     (returnedBlock R).map
        (fun (b : doris_rnx.DataBlock) => b.mbeacon_obs.length) =
       some 44) := by
  decide

/-- **C5 (amended).** For every call that returns status 0 (a delivered
DataBlock), the block holds exactly `m_num_stations.toNat`
BeaconObservations — the *stored* station count, which equals the
declared count whenever that count is at most 127 — and every one of
them holds exactly `len(obs_codes)` RinexObservationValue entries.
(Declared counts 128..255 store a negative count and never reach a
return: the `reserve` call aborts the process; larger declared counts
wrap, truncating the block — see the counterexample.)
Conjunct 2 runs the spec's end-to-end scenario (3 declared codes, 2
beacons, 2 epochs, counts well below 128): exactly 2 DataBlocks are
yielded in file order — beacons D01,D02 then D03,D04 — each with exactly
2 BeaconObservations of exactly 3 values in declared-code order,
followed by the `End` outcome. -/
theorem C5_block_shape :
    (∀ (cfg : RnxConfig) (st : IStream) (buf : LineBuf)
        (block : doris_rnx.DataBlock)
        (r : Int × doris_rnx.DataBlock × IStream),
      get_next_data_block cfg st buf block = .ret r → r.1 = 0 →
      r.2.1.mbeacon_obs.length = r.2.1.mheader.m_num_stations.toNat ∧
      ∀ bo ∈ r.2.1.mbeacon_obs, bo.m_values.length = cfg.n_obs_codes) ∧
    (let st0 := mkStream [mkEpochLine "  2", beaconLine3 "D01",
        beaconLine3 "D02", mkEpochLine "  2", beaconLine3 "D03",
        beaconLine3 "D04"]
     let s1 := iterNext cfgThree initIterState st0 initLineBuf
     let s2 := iterNext cfgThree s1.iter s1.stream initLineBuf
     let s3 := iterNext cfgThree s2.iter s2.stream initLineBuf
     s1.outcome = .ok ∧ s2.outcome = .ok ∧ s3.outcome = .atEnd ∧
     s1.iter.current.mheader.m_num_stations = 2 ∧
     s2.iter.current.mheader.m_num_stations = 2 ∧
     (s1.iter.current.mbeacon_obs.map
        (fun b => (b.m_beacon_id, b.m_values.map
          (fun v => v.m_value)))) =
       [(("D01").toList ++ [nullChar], [10, -7/2, 7]),
        (("D02").toList ++ [nullChar], [10, -7/2, 7])] ∧
     (s2.iter.current.mbeacon_obs.map
        (fun b => (b.m_beacon_id, b.m_values.map
          (fun v => v.m_value)))) =
       [(("D03").toList ++ [nullChar], [10, -7/2, 7]),
        (("D04").toList ++ [nullChar], [10, -7/2, 7])]) := by
  constructor
  · intro cfg st buf block r hr h0
    simp only [get_next_data_block] at hr
    split at hr
    · split at hr
      · injection hr with hr
        subst hr
        simp at h0
      · injection hr with hr
        subst hr
        simp at h0
    · split at hr
      · injection hr with hr
        subst hr
        simp at h0
      · split at hr
        · simp at hr
        · split at hr
          · rename_i code st2 l2 acc hbl
            injection hr with hr
            subst hr
            simp only [Prod.fst] at h0
            have := beaconLoop_inl_code cfg _ _ _ _ _ hbl
            simp at this h0
            omega
          · rename_i st2 l2 acc hbl
            injection hr with hr
            subst hr
            have hshape := beaconLoop_inr_shape cfg _ _ _ _ _ hbl
            simp only [List.length_nil, Nat.zero_add] at hshape
            refine ⟨hshape.1, ?_⟩
            intro bo hbo
            rcases hshape.2 bo hbo with hin | hlen
            · simp at hin
            · exact hlen
  · decide

/-- Witness for C5 (amended), instantiating the universally quantified
shape conjunct at the first block of the end-to-end scenario file. -/
theorem C5_block_shape_witness :
    (match get_next_data_block cfgThree
        (mkStream [mkEpochLine "  2", beaconLine3 "D01", beaconLine3 "D02",
          mkEpochLine "  2", beaconLine3 "D03", beaconLine3 "D04"])
        initLineBuf doris_rnx.initDataBlock with
     | .terminated => False
     | .ret r =>
        r.2.1.mbeacon_obs.length = r.2.1.mheader.m_num_stations.toNat ∧
        ∀ bo ∈ r.2.1.mbeacon_obs,
          bo.m_values.length = cfgThree.n_obs_codes) := by
  exact C5_block_shape.1 cfgThree
    (mkStream [mkEpochLine "  2", beaconLine3 "D01", beaconLine3 "D02",
      mkEpochLine "  2", beaconLine3 "D03", beaconLine3 "D04"])
    initLineBuf doris_rnx.initDataBlock _ rfl (by decide)

/-- **C8.** Whenever the physical line at the epoch-header position does
not start with `'>'`, the `next()` call reports the record-format error
(the status-1 outcome that `operator++` turns into the thrown
`std::runtime_error`), iteration delivers no block from this call, and
the caller-visible current block is left exactly as it was — no partial
`DataBlock` is emitted. -/
theorem C8_bad_epoch_marker_halts :
    ∀ (cfg : RnxConfig) (it : IterState) (st : IStream) (buf : LineBuf)
      (L : List Char) (rest : List (List Char)),
      it.alive = true → st.fail = false → st.lines = L :: rest →
      L.headD nullChar ≠ '>' →
      (iterNext cfg it st buf).outcome = .err 1 ∧
      (iterNext cfg it st buf).iter.current = it.current := by
  intro cfg it st buf L rest ha hf hl hne
  unfold iterNext
  rw [get_next_data_block_bad_marker hf hl hne buf it.current]
  simp [ha]

/-- Witness for C8: a concrete stream whose first line starts with `'X'`;
the first `next()` call yields the error outcome and the freshly primed
iterator still holds the default-constructed block. -/
theorem C8_bad_epoch_marker_halts_witness :
    (iterNext cfgThree initIterState
        (mkStream [("X bad epoch line").toList]) initLineBuf).outcome =
      .err 1 ∧
    (iterNext cfgThree initIterState
        (mkStream [("X bad epoch line").toList]) initLineBuf).iter.current =
      initIterState.current :=
  C8_bad_epoch_marker_halts cfgThree initIterState
    (mkStream [("X bad epoch line").toList]) initLineBuf
    (("X bad epoch line").toList) [] rfl rfl rfl (by decide)

/-- **C2 (counterexample).** The claim — after any `Error` outcome every
subsequent `next()` call returns the identical outcome, never re-reading
— is false on the code: on a stream whose first line is malformed and
whose second line is a well-formed epoch header declaring 0 stations,
the first `next()` throws (the status-1 error outcome), but the iterator
is left with `m_rnx` non-null, so the second `next()` re-reads the
advanced stream and succeeds. -/
theorem C2_error_not_terminal_counterexample :
    (let st0 := mkStream [("X bad line").toList, mkEpochLine "  0"]
     let s1 := iterNext cfgOneScale2 initIterState st0 initLineBuf
     let s2 := iterNext cfgOneScale2 s1.iter s1.stream initLineBuf
     s1.outcome = .err 1 ∧ s2.outcome = .ok ∧ s2.outcome ≠ s1.outcome) := by
  decide

/-- **C2 (amended).** Terminal idempotence holds for `End` only: once a
`next()` call has returned the `End` outcome, every subsequent `next()`
call returns `End` again and changes neither the iterator nor the
stream.  (After an `Error` outcome the adapter is *not* terminal: `m_rnx`
stays non-null and the next call re-reads from the advanced stream
position — see the counterexample.) -/
theorem C2_end_terminal_idempotent :
    ∀ (cfg : RnxConfig) (it : IterState) (st : IStream)
      (b1 b2 : LineBuf),
      (iterNext cfg it st b1).outcome = .atEnd →
      iterNext cfg (iterNext cfg it st b1).iter
        (iterNext cfg it st b1).stream b2 = iterNext cfg it st b1 := by
  intro cfg it st b1 b2 h
  cases hb : it.alive with
  | false =>
    rw [iterNext_dead hb] at h ⊢
    rw [iterNext_dead hb]
  | true =>
    rcases hres : get_next_data_block cfg st b1 it.current with _ | r
    · rw [iterNext_alive_terminated hb hres] at h
      simp at h
    · rw [iterNext_alive_ret hb hres] at h ⊢
      by_cases h0 : r.1 = 0
      · simp [h0] at h
      · by_cases hn : r.1 < 0
        · simp only [h0, hn, if_true, if_false, if_neg, if_pos] at h ⊢
          rw [iterNext_dead rfl]
        · simp [h0, hn] at h

/-- Witness for C2 (amended): on the empty stream the first `next()`
returns `End`, and the second `next()` returns the very same `End`
step. -/
theorem C2_end_terminal_idempotent_witness :
    (iterNext cfgOneScale2 initIterState (mkStream []) initLineBuf).outcome
        = .atEnd ∧
    iterNext cfgOneScale2
        (iterNext cfgOneScale2 initIterState (mkStream []) initLineBuf).iter
        (iterNext cfgOneScale2 initIterState (mkStream [])
          initLineBuf).stream initLineBuf =
      iterNext cfgOneScale2 initIterState (mkStream []) initLineBuf :=
  ⟨by decide,
   C2_end_terminal_idempotent cfgOneScale2 initIterState (mkStream [])
     initLineBuf initLineBuf (by decide)⟩

/-- **C6.** For every non-blank observation slot, the 14-byte field is
parsed as a floating value and the stored value is that parse result
divided by the scale factor found at the same index `curobs` as the
observation code (`m_obs_scale_factors` being index-aligned with
`m_obs_codes`); a scale factor of 1 leaves the value unchanged.  The two
quality-flag characters are taken verbatim from the line. -/
theorem C6_nonblank_slot_descaled :
    ∀ (scales : List Int) (curobs : Nat) (line : LineBuf) (v : ℚ),
      bufIsEmpty (obsFieldBuf curobs line) = false →
      fromCharsQ (obsFieldBuf curobs line)
          (skipwsIdx (obsFieldBuf curobs line) 0) 16 = some v →
      decodeObsSlot scales curobs line =
        some ⟨v / (scaleAt scales curobs : ℚ),
          bufGet line (obsSlotBase curobs + 14),
          bufGet line (obsSlotBase curobs + 15)⟩ ∧
      (scaleAt scales curobs = 1 →
        decodeObsSlot scales curobs line =
          some ⟨v, bufGet line (obsSlotBase curobs + 14),
            bufGet line (obsSlotBase curobs + 15)⟩) := by
  intro scales curobs line v hne hp
  have hmain : decodeObsSlot scales curobs line =
      some ⟨v / (scaleAt scales curobs : ℚ),
        bufGet line (obsSlotBase curobs + 14),
        bufGet line (obsSlotBase curobs + 15)⟩ := by
    simp [decodeObsSlot, hne, hp]
  refine ⟨hmain, ?_⟩
  intro h1
  rw [hmain, h1]
  norm_num

/-- Witness for C6 at a concrete line: the first slot of a beacon line
reads `10.0`, the scale factor declared at index 0 is 2, and the stored
value is `5`. -/
theorem C6_nonblank_slot_descaled_witness :
    decodeObsSlot [2] 0 (beaconLine3 "D01") = some ⟨5, ' ', ' '⟩ := by
  have h := (C6_nonblank_slot_descaled [2] 0 (beaconLine3 "D01") 10
    (by decide) (by decide)).1
  rw [h]
  decide

/-- **C3.** The claim says an all-blank 14-byte slot decodes to exactly
the missing-value sentinel regardless of the declared scale factor.  The
code does skip the numeric parse and assigns the sentinel — but the
shared `val /= m_obs_scale_factors[curobs]` statement
(`read_next_data_block.cpp` line 248) then divides the sentinel too, so
with scale factor 2 the stored value is `sentinel / 2`
(`= 2 ^ (-1023)`), which is *not* the sentinel (making the missing value
undetectable downstream), though indeed never `0.0`.  Evaluated here on
a one-code file (scale factor 2) whose single slot is blank. -/
theorem C3_blank_slot_scaled_sentinel :
    (let R := get_next_data_block cfgOneScale2
        (mkStream [mkEpochLine "  1", ("D01").toList ++ blankSlotChars])
        initLineBuf doris_rnx.initDataBlock
     returnedStatus R = some 0 ∧
     (returnedBlock R).map
        (fun (b : doris_rnx.DataBlock) => b.mbeacon_obs.map
          (fun (bo : doris_rnx.BeaconObservations) => bo.m_values)) =
       some [[⟨doris_rnx.OBSERVATION_VALUE_MISSING / 2, ' ', ' '⟩]] ∧
     doris_rnx.OBSERVATION_VALUE_MISSING / 2 ≠
       doris_rnx.OBSERVATION_VALUE_MISSING ∧
     doris_rnx.OBSERVATION_VALUE_MISSING / 2 ≠ 0) := by
  decide

/-- **C4.** The claim: end-of-stream at an epoch-header position yields
`End`; end-of-stream mid-record yields a RecordFormatError.  The first
half holds, and so does the mid-record case when the truncation falls on
the first line of a beacon group (conjuncts 1 and 2).  But when the file
ends before a *continuation* line of a beacon group, the unchecked
`m_stream.getline` (`read_next_data_block.cpp` line 189) fails silently:
only the buffer's first byte becomes NUL, the stale tail of the previous
line is re-parsed as observation fields, and the reader returns status 0
— a fabricated complete block instead of the claimed error.  Conjunct 3
evaluates this on a 6-observable file whose single beacon group has its
second line missing: the slot at index 5 is filled from the stale first
slot of the previous line. -/
theorem C4_eof_handling :
    (returnedStatus (get_next_data_block cfgOneScale2 (mkStream [])
        initLineBuf doris_rnx.initDataBlock) = some (-1) ∧
     returnedStatus (get_next_data_block cfgOneScale2
        (mkStream [mkEpochLine "  1"]) initLineBuf
        doris_rnx.initDataBlock) = some 1 ∧
     (let R := get_next_data_block cfgSix
        (mkStream [mkEpochLine "  1", beaconLine5]) initLineBuf
        doris_rnx.initDataBlock
      returnedStatus R = some 0 ∧
      (returnedBlock R).map
         (fun (b : doris_rnx.DataBlock) => b.mbeacon_obs.map
           (fun (bo : doris_rnx.BeaconObservations) =>
             bo.m_values.map
               (fun (v : doris_rnx.RinexObservationValue) => v.m_value)))
        = some [[10, -7/2, 7, 33/4, 9, 10]])) := by
  decide

/-- **C1.** The claim says a failed header parse makes construction of
`DorisObsRinex` fail outright, the error propagating to the caller —
and the class's own documentation (`doris_rinex.hpp` lines 154-159,
`doris_rinex.cpp` lines 4-8) promises an `std::runtime_error`.  The
constructor as written, however, wraps its `try` block in a
`catch (std::exception &)` that swallows the very exception the block
throws on a nonzero `read_header()` status: construction completes
normally for every header-parse outcome, leaving the object constructed
and unusable.  This theorem exhibits the divergence by evaluating the
constructor's control flow. -/
theorem C1_ctor_swallows_header_error :
    DorisObsRinexCtor 1 = .constructed ∧
      ∀ s : Int, DorisObsRinexCtor s ≠ .threw := by
  refine ⟨rfl, ?_⟩
  intro s
  unfold DorisObsRinexCtor
  cases DorisObsRinexCtorBody s <;> simp

end dso
